import Mathlib

/-!
Verification of the `csvfile` lookup plugin
(`src/lib/ansible/plugins/lookup/csvfile.py`).

The plugin's two functions are embedded shallowly:

* `Csvfile.read_csv` embeds `LookupModule.read_csv`: open the file, iterate
  over its parsed rows, return `row[int(col)]` for the first row with
  `row[0] == key`, wrap every exception of the `try` block in an
  `AnsibleError`, return the default when no row matched.
* `Csvfile.run` embeds `LookupModule.run`: split each term on whitespace,
  take the first token as the key, fold the remaining `name=value` tokens
  over the five-entry parameter table, alias the delimiter `"TAB"` to a
  horizontal tab, call `read_csv`, and append non-`None` results in order.

External collaborators that are not part of this repository are modelled
explicitly and minimally:

* the file system together with `find_file_in_search_path` is a map
  `files : String → Option String` from the `file` parameter to decoded
  file content (`none` = the file cannot be opened, which the `try` block
  of `read_csv` turns into an `AnsibleError`);
* Python's `csv.reader` is modelled for inputs without quote characters
  (`csvParse`): lines split on `"\n"` (a trailing newline produces no
  extra row), each non-blank line split on the single-character delimiter,
  a blank line yielding the empty row `[]` — exactly what `csv.reader`
  produces for such inputs;
* Python primitives `str.split()` (`pySplit`), `str.split('=')`
  (`String.splitOn "="`), `int(...)` on strings (`pyInt?`) and list
  indexing with negative-index semantics (`pyIndex?`).

Errors are structured values (`PyErr`, `LookupErr`) that record exactly the
information the corresponding Python exception carries: an `AssertionError`
from `assert(name in paramvals)` carries nothing, the `ValueError` of a
failed two-way unpack carries only the number of parts, an uncaught
`IndexError` from `params[0]` carries nothing and is not wrapped in an
`AnsibleError`.
-/

namespace Csvfile

/-- Python whitespace characters recognised by `str.split()`. -/
def pyWS : List Char := [' ', '\t', '\n', '\r', '\x0b', '\x0c']

/-- Split a character list at every character satisfying `p`, keeping the
(possibly empty) groups between separators, as Python's `str.split(sep)`
does for a single-character separator. -/
def splitChars (p : Char → Bool) : List Char → List (List Char)
  | [] => [[]]
  | c :: cs =>
    match splitChars p cs with
    | [] => [[]]
    | grp :: grps => if p c then [] :: grp :: grps else (c :: grp) :: grps

/-- Python `str.split()` with no argument: split on whitespace, discarding
empty pieces (so runs of whitespace act as one separator). -/
def pySplit (s : String) : List String :=
  ((splitChars (fun c => pyWS.contains c) s.toList).map String.mk).filter
    (fun t => t ≠ "")

/-- Python `param.split('=')`: split at every `=` character, keeping empty
pieces. -/
def splitEq (s : String) : List String :=
  (splitChars (fun c => c == '=') s.toList).map String.mk

/-- Python `str.strip()` restricted to the whitespace characters above. -/
def pyStrip (s : String) : String :=
  String.mk (((s.toList.dropWhile (pyWS.contains ·)).reverse.dropWhile
    (pyWS.contains ·)).reverse)

/-- Numeric value of a digit string (used only when all characters are digits). -/
def digitsVal (l : List Char) : Nat :=
  l.foldl (fun acc c => 10 * acc + (c.toNat - 48)) 0

/-- Parse a non-empty all-digit character list, else `none`. -/
def pyDigits? (l : List Char) : Option Nat :=
  if l ≠ [] ∧ l.all (fun c => c.isDigit) then some (digitsVal l) else none

/-- Python `int(s)` for a string `s`: optional surrounding whitespace, an
optional sign, then decimal digits; any other shape raises `ValueError`
(modelled as `none`). -/
def pyInt? (s : String) : Option Int :=
  match (pyStrip s).toList with
  | '-' :: rest => (pyDigits? rest).map (fun n => -(n : Int))
  | '+' :: rest => (pyDigits? rest).map (fun n => (n : Int))
  | l => (pyDigits? l).map (fun n => (n : Int))

/-- Python list indexing `l[i]`: non-negative indices from the front,
negative indices count from the end; out of range (modelled as `none`)
raises `IndexError`. -/
def pyIndex? (l : List String) (i : Int) : Option String :=
  if 0 ≤ i then l.get? i.toNat
  else if 0 ≤ i + l.length then l.get? (i + l.length).toNat
  else none

/-- Structured content of the Python exceptions this plugin can raise.
Each constructor records exactly the data the real exception object
carries in its message. -/
inductive PyErr where
  /-- `IndexError` (message `list index out of range`, no further data). -/
  | indexError : PyErr
  /-- `ValueError` from `name, value = param.split('=')` when the split
  produced `nparts ≠ 2` parts; the message mentions only the counts. -/
  | valueErrorUnpack (nparts : Nat) : PyErr
  /-- `ValueError` from `int(col)` on an invalid literal; the message
  carries the offending string. -/
  | valueErrorInt (s : String) : PyErr
  /-- `AssertionError` from the bare `assert(name in paramvals)`: it
  carries no message at all. -/
  | assertionError : PyErr
  /-- Failure to open the resolved file. -/
  | ioError (filename : String) : PyErr
  /-- `csv.reader` rejects a delimiter that is not one character. -/
  | delimiterError : PyErr
  deriving Repr, DecidableEq

/-- How an error leaves `LookupModule.run`: wrapped in an `AnsibleError`
(the raise sites at lines 103 and 129-130 of the source), or as an
uncaught Python exception (the unguarded `params[0]` at line 113). -/
inductive LookupErr where
  | ansibleError (e : PyErr) : LookupErr
  | uncaught (e : PyErr) : LookupErr
  deriving Repr, DecidableEq

instance {ε α : Type} [DecidableEq ε] [DecidableEq α] : DecidableEq (Except ε α)
  | .error a, .error b =>
    match decEq a b with
    | isTrue h => isTrue (by rw [h])
    | isFalse h => isFalse (fun hh => h (by cases hh; rfl))
  | .error _, .ok _ => isFalse (fun hh => by cases hh)
  | .ok _, .error _ => isFalse (fun hh => by cases hh)
  | .ok a, .ok b =>
    match decEq a b with
    | isTrue h => isTrue (by rw [h])
    | isFalse h => isFalse (fun hh => h (by cases hh; rfl))

/-- Split decoded file content into the lines `csv.reader` iterates over:
split on newline characters, with a trailing newline producing no extra
line. -/
def csvLines (content : String) : List String :=
  let ls := (splitChars (fun c => c == '\n') content.toList).map String.mk
  if ls.getLast? = some "" then ls.dropLast else ls

/-- Modelled external collaborator: Python's `csv.reader` (module `csv`,
not part of this repository) restricted to inputs without quote
characters. Each line is split on the single-character delimiter `d`; a
blank line yields the empty row `[]`, exactly as `csv.reader` does. -/
def csvParse (d : Char) (content : String) : List (List String) :=
  (csvLines content).map
    (fun line =>
      if line = "" then []
      else (splitChars (fun c => c == d) line.toList).map String.mk)

/-- The loop body of `read_csv`: `for row in creader: if row[0] == key:
return row[int(col)]`. `row[0]` on an empty row raises `IndexError`; on a
match, `int(col)` is evaluated first (possible `ValueError`), then the
indexing (possible `IndexError`, negative indices allowed). `ok none`
means the loop finished without a match. -/
def scanRows (key col : String) : List (List String) → Except PyErr (Option String)
  | [] => .ok none
  | [] :: _ => .error .indexError
  | (field0 :: fields) :: rest =>
    if field0 = key then
      match pyInt? col with
      | none => .error (.valueErrorInt col)
      | some i =>
        match pyIndex? (field0 :: fields) i with
        | none => .error .indexError
        | some v => .ok (some v)
    else scanRows key col rest

/-- The single character `csv.reader` accepts as delimiter; any other
delimiter string raises at reader construction. -/
def delimChar? (delimiter : String) : Option Char :=
  match delimiter.toList with
  | [d] => some d
  | _ => none

/-- The `try` block of `read_csv`: open the file, build the reader (which
rejects a delimiter that is not one character) and run the scanning loop. -/
def tryReadCsv (files : String → Option String) (filename key delimiter col : String) :
    Except PyErr (Option String) :=
  match files filename with
  | none => .error (.ioError filename)
  | some content =>
    match delimChar? delimiter with
    | some d => scanRows key col (csvParse d content)
    | none => .error .delimiterError

/-- Embeds `LookupModule.read_csv`. `files` models the file system as seen
through the resolved path (`none` = `open` fails). Every exception of the
`try` block is wrapped as `AnsibleError("csvfile: %s" % e)`; when the loop
ends without a match the default `dflt` is returned. The `encoding`
parameter is kept for signature fidelity; content arrives already decoded. -/
def read_csv (files : String → Option String) (filename key delimiter : String)
    (encoding : String) (dflt : Option String) (col : String) :
    Except LookupErr (Option String) :=
  match tryReadCsv files filename key delimiter col with
  | .error e => .error (.ansibleError e)
  | .ok (some v) => .ok (some v)
  | .ok none => .ok dflt

/-- The `paramvals` table of `run`: its five keys with their defaults.
`default` starts as Python `None`, hence `Option String`. -/
structure ParamVals where
  col : String
  default : Option String
  delimiter : String
  file : String
  encoding : String
  deriving Repr, DecidableEq

/-- Initial `paramvals` dictionary of `run`. -/
def initParamVals : ParamVals :=
  { col := "1", default := none, delimiter := "TAB",
    file := "ansible.csv", encoding := "utf-8" }

/-- The keys of `paramvals`, against which `assert(name in paramvals)` checks. -/
def paramNames : List String := ["col", "default", "delimiter", "file", "encoding"]

/-- `paramvals[name] = value` for a recognised `name`. -/
def setParam (pv : ParamVals) (name value : String) : ParamVals :=
  match name with
  | "col" => { pv with col := value }
  | "default" => { pv with default := some value }
  | "delimiter" => { pv with delimiter := value }
  | "file" => { pv with file := value }
  | "encoding" => { pv with encoding := value }
  | _ => pv

/-- The `for param in params[1:]` loop of `run` with its `try/except`:
`name, value = param.split('=')` (a `ValueError` when the `=`-split does
not give exactly two parts), `assert(name in paramvals)` (an
`AssertionError` for an unknown name); both are re-raised as
`AnsibleError(e)`. -/
def parseParams (pv : ParamVals) : List String → Except LookupErr ParamVals
  | [] => .ok pv
  | param :: rest =>
    match splitEq param with
    | [name, value] =>
      if paramNames.contains name then parseParams (setParam pv name value) rest
      else .error (.ansibleError .assertionError)
    | parts => .error (.ansibleError (.valueErrorUnpack parts.length))

/-- A parameter token that the loop of `run` accepts: its `=`-split has
exactly two parts and the name is one of the five recognised keys. -/
def tokenOk (tok : String) : Bool :=
  match splitEq tok with
  | [name, _] => paramNames.contains name
  | _ => false

/-- The delimiter aliasing of `run`: after parsing, the literal value
`"TAB"` is replaced by a horizontal tab. -/
def applyTabAlias (pv : ParamVals) : ParamVals :=
  if pv.delimiter = "TAB" then { pv with delimiter := "\t" } else pv

/-- The tail of the per-term processing of `run`, after the key and the
parameter values are known: alias the delimiter and call `read_csv` with
the parameters in the source's argument order. -/
def lookupTerm (files : String → Option String) (key : String) (pv : ParamVals) :
    Except LookupErr (Option String) :=
  let pv := applyTabAlias pv
  read_csv files pv.file key pv.delimiter pv.encoding pv.default pv.col

/-- Processing of one term inside the loop of `run`: `params =
term.split()`, `key = params[0]` (an uncaught `IndexError` when the term
has no tokens — this statement is outside the `try` block), then parameter
parsing and the lookup. -/
def processTerm (files : String → Option String) (term : String) :
    Except LookupErr (Option String) :=
  match pySplit term with
  | [] => .error (.uncaught .indexError)
  | key :: rest =>
    match parseParams initParamVals rest with
    | .error e => .error e
    | .ok pv => lookupTerm files key pv

/-- The term loop of `run` with its accumulator `ret`: a `None` result
contributes nothing, any other result is appended. (The
`MutableSequence` flattening branch of the source is unreachable here:
`read_csv` only ever returns a row field or the default, both strings.) -/
def runAux (files : String → Option String) (ret : List String) :
    List String → Except LookupErr (List String)
  | [] => .ok ret
  | term :: rest =>
    match processTerm files term with
    | .error e => .error e
    | .ok none => runAux files ret rest
    | .ok (some v) => runAux files (ret ++ [v]) rest

/-- Embeds `LookupModule.run`: process the terms in order, starting from
the empty accumulator. -/
def run (files : String → Option String) (terms : List String) :
    Except LookupErr (List String) :=
  runAux files [] terms

/-- A row that the scan steps over without matching or erroring: it has a
first field and that field differs from the key. -/
def rowSkipsKey (key : String) (row : List String) : Bool :=
  match row with
  | [] => false
  | hd :: _ => hd != key

/-- A row whose first field, if any, differs from the key (an empty row
also has no matching first field). -/
def rowNoMatch (key : String) (row : List String) : Bool :=
  match row with
  | [] => true
  | hd :: _ => hd != key

/-- Concrete file system used by the witnesses and counterexamples:
`ansible.csv` is a three-row tab-separated file, `blank.csv` contains a
blank line between its first row and a row whose key is `k`. -/
def demoFiles : String → Option String :=
  fun name =>
    if name = "ansible.csv" then some "A\tx\ty\nB\tp\tq\nk\ta\tb"
    else if name = "blank.csv" then some "A\tx\n\nk\tv\tw"
    else none

/-! ## Helper lemmas -/

/-- Unchanged fields of the delimiter aliasing. -/
theorem applyTabAlias_file (pv : ParamVals) : (applyTabAlias pv).file = pv.file := by
  unfold applyTabAlias
  split <;> rfl

/-- Unchanged fields of the delimiter aliasing. -/
theorem applyTabAlias_default (pv : ParamVals) :
    (applyTabAlias pv).default = pv.default := by
  unfold applyTabAlias
  split <;> rfl

/-- Unchanged fields of the delimiter aliasing. -/
theorem applyTabAlias_encoding (pv : ParamVals) :
    (applyTabAlias pv).encoding = pv.encoding := by
  unfold applyTabAlias
  split <;> rfl

/-- Unchanged fields of the delimiter aliasing. -/
theorem applyTabAlias_col (pv : ParamVals) : (applyTabAlias pv).col = pv.col := by
  unfold applyTabAlias
  split <;> rfl

/-- Rows that are skipped leave the scan unchanged. -/
theorem scanRows_skip (key col : String) :
    ∀ (pre rows : List (List String)), pre.all (rowSkipsKey key) = true →
      scanRows key col (pre ++ rows) = scanRows key col rows
  | [], _, _ => rfl
  | p :: pre, rows, h => by
    simp only [List.all_cons, Bool.and_eq_true] at h
    obtain ⟨hp, hpre⟩ := h
    cases p with
    | nil => simp [rowSkipsKey] at hp
    | cons hd tl =>
      have hne : hd ≠ key := by simpa [rowSkipsKey] using hp
      simp only [List.cons_append, scanRows, if_neg hne]
      exact scanRows_skip key col pre rows hpre

/-- A scan over rows that all skip the key finishes without a match. -/
theorem scanRows_nomatch (key col : String) :
    ∀ (rows : List (List String)), rows.all (rowSkipsKey key) = true →
      scanRows key col rows = .ok none
  | [], _ => rfl
  | p :: rows, h => by
    simp only [List.all_cons, Bool.and_eq_true] at h
    obtain ⟨hp, hrows⟩ := h
    cases p with
    | nil => simp [rowSkipsKey] at hp
    | cons hd tl =>
      have hne : hd ≠ key := by simpa [rowSkipsKey] using hp
      simp only [scanRows, if_neg hne]
      exact scanRows_nomatch key col rows hrows

/-- The scan at a row whose first field is the key, when `int(col)` parses
and the index is in range: the loop returns that field. -/
theorem scanRows_match_ok (key col : String) (r : List String)
    (rest : List (List String)) (hr : r.head? = some key) (i : Int)
    (hi : pyInt? col = some i) (v : String) (hv : pyIndex? r i = some v) :
    scanRows key col (r :: rest) = .ok (some v) := by
  cases r with
  | nil => simp at hr
  | cons hd tl =>
    have hk : hd = key := by simpa using hr
    subst hk
    simp [scanRows, hi, hv]

/-- The scan at a row whose first field is the key, when `int(col)` parses
but the index is out of range: `row[int(col)]` raises `IndexError`. -/
theorem scanRows_match_idx_err (key col : String) (r : List String)
    (rest : List (List String)) (hr : r.head? = some key) (i : Int)
    (hi : pyInt? col = some i) (hv : pyIndex? r i = none) :
    scanRows key col (r :: rest) = .error .indexError := by
  cases r with
  | nil => simp at hr
  | cons hd tl =>
    have hk : hd = key := by simpa using hr
    subst hk
    simp [scanRows, hi, hv]

/-- The scan at a row whose first field is the key, when `int(col)` does
not parse: `int(col)` raises `ValueError` carrying the string. -/
theorem scanRows_match_int_err (key col : String) (r : List String)
    (rest : List (List String)) (hr : r.head? = some key)
    (hi : pyInt? col = none) :
    scanRows key col (r :: rest) = .error (.valueErrorInt col) := by
  cases r with
  | nil => simp at hr
  | cons hd tl =>
    have hk : hd = key := by simpa using hr
    subst hk
    simp [scanRows, hi]

/-- A scan that reaches an empty row raises `IndexError` from `row[0]`,
whatever comes after the empty row. -/
theorem scanRows_empty_row (key col : String) :
    ∀ (pre post : List (List String)), pre.all (rowNoMatch key) = true →
      scanRows key col (pre ++ [] :: post) = .error .indexError
  | [], _, _ => rfl
  | p :: pre, post, h => by
    simp only [List.all_cons, Bool.and_eq_true] at h
    obtain ⟨hp, hpre⟩ := h
    cases p with
    | nil => rfl
    | cons hd tl =>
      have hne : hd ≠ key := by simpa [rowNoMatch] using hp
      simp only [List.cons_append, scanRows, if_neg hne]
      exact scanRows_empty_row key col pre post hpre

/-- Python indexing is `none` exactly outside `-len ≤ i < len`; this is
the out-of-range direction. -/
theorem pyIndex?_out (l : List String) (i : Int)
    (h : (l.length : Int) ≤ i ∨ i + l.length < 0) : pyIndex? l i = none := by
  unfold pyIndex?
  rcases h with h | h
  · have h0 : 0 ≤ i := le_trans (Int.ofNat_nonneg l.length) h
    rw [if_pos h0]
    exact List.get?_eq_none.mpr (by omega)
  · have h0 : ¬ 0 ≤ i := by omega
    rw [if_neg h0, if_neg (by omega)]

/-- Evaluation lemma for `read_csv` once the file content and the
delimiter character are known. -/
theorem read_csv_eval (files : String → Option String)
    (filename content key delimiter enc col : String) (dflt : Option String)
    (d : Char) (hf : files filename = some content)
    (hd : delimChar? delimiter = some d) :
    read_csv files filename key delimiter enc dflt col =
      match scanRows key col (csvParse d content) with
      | .error e => .error (.ansibleError e)
      | .ok (some v) => .ok (some v)
      | .ok none => .ok dflt := by
  unfold read_csv tryReadCsv
  rw [hf, hd]

/-- The accumulator of the term loop only ever grows at the front. -/
theorem runAux_acc (files : String → Option String) :
    ∀ (ts ret : List String),
      runAux files ret ts = Except.map (fun vs => ret ++ vs) (runAux files [] ts)
  | [], ret => by simp [runAux, Except.map]
  | term :: ts, ret => by
    simp only [runAux]
    cases hpt : processTerm files term with
    | error e => simp [Except.map]
    | ok var =>
      cases var with
      | none => exact runAux_acc files ts ret
      | some v =>
        show runAux files (ret ++ [v]) ts =
          Except.map (fun vs => ret ++ vs) (runAux files ([] ++ [v]) ts)
        rw [runAux_acc files ts (ret ++ [v]), runAux_acc files ts ([] ++ [v])]
        cases runAux files [] ts with
        | error e => simp [Except.map]
        | ok vs => simp [Except.map]

/-- The term loop splits over list append. -/
theorem runAux_append (files : String → Option String) :
    ∀ (ts1 : List String) (ret : List String) (ts2 : List String),
      runAux files ret (ts1 ++ ts2) =
        match runAux files ret ts1 with
        | .error e => .error e
        | .ok vs1 => runAux files vs1 ts2
  | [], _, _ => rfl
  | term :: ts1, ret, ts2 => by
    simp only [List.cons_append, runAux]
    cases hpt : processTerm files term with
    | error e => rfl
    | ok var =>
      cases var with
      | none => exact runAux_append files ts1 ret ts2
      | some v => exact runAux_append files ts1 (ret ++ [v]) ts2

/-- A term whose processing errors aborts the loop with that error, no
matter what the accumulator holds and what terms follow. -/
theorem runAux_error_first (files : String → Option String) (t : String)
    (e : LookupErr) (post : List String) (ht : processTerm files t = .error e) :
    ∀ (pre : List String) (ret : List String),
      (∀ p ∈ pre, ∃ v, processTerm files p = .ok v) →
      runAux files ret (pre ++ t :: post) = .error e
  | [], ret, _ => by simp only [List.nil_append, runAux, ht]
  | p :: pre, ret, hpre => by
    obtain ⟨v, hv⟩ := hpre p (List.mem_cons_self p pre)
    simp only [List.cons_append, runAux, hv]
    cases v with
    | none =>
      exact runAux_error_first files t e post ht pre ret
        (fun q hq => hpre q (List.mem_cons_of_mem p hq))
    | some w =>
      exact runAux_error_first files t e post ht pre (ret ++ [w])
        (fun q hq => hpre q (List.mem_cons_of_mem p hq))

/-- Processing a single term: the result list has the one resolved value,
or is empty when the term resolves to `None`. -/
theorem run_single (files : String → Option String) (term : String) :
    run files [term] =
      match processTerm files term with
      | .error e => .error e
      | .ok none => .ok []
      | .ok (some v) => .ok [v] := by
  unfold run runAux
  cases processTerm files term with
  | error e => rfl
  | ok var => cases var <;> rfl

/-- A parameter token the loop rejects produces an `AnsibleError` wrapping
either the unpack `ValueError` or the `AssertionError`. -/
theorem parseParams_cons_bad (pv : ParamVals) (tok : String)
    (rest : List String) (htok : tokenOk tok = false) :
    ∃ e : PyErr, parseParams pv (tok :: rest) = .error (.ansibleError e) := by
  unfold tokenOk at htok
  unfold parseParams
  cases hs : splitEq tok with
  | nil => exact ⟨.valueErrorUnpack 0, rfl⟩
  | cons a l =>
    cases l with
    | nil => exact ⟨.valueErrorUnpack 1, rfl⟩
    | cons b l2 =>
      cases l2 with
      | nil =>
        rw [hs] at htok
        have hc : paramNames.contains a = false := htok
        refine ⟨.assertionError, ?_⟩
        show (if paramNames.contains a = true then
            parseParams (setParam pv a b) rest
          else Except.error (.ansibleError .assertionError)) =
          Except.error (.ansibleError .assertionError)
        rw [if_neg (show ¬paramNames.contains a = true by
          rw [hc]; exact Bool.false_ne_true)]
      | cons c l3 =>
        exact ⟨.valueErrorUnpack (l3.length + 3), rfl⟩

/-- If any parameter token of a term is rejected, the parameter loop fails
with an `AnsibleError`. -/
theorem parseParams_bad :
    ∀ (rest : List String) (pv : ParamVals),
      rest.any (fun tok => !(tokenOk tok)) = true →
      ∃ e : PyErr, parseParams pv rest = .error (.ansibleError e)
  | [], _, h => by simp at h
  | tok :: rest, pv, h => by
    cases htok : tokenOk tok with
    | false => exact parseParams_cons_bad pv tok rest htok
    | true =>
      have hrest : rest.any (fun t => !(tokenOk t)) = true := by
        simp only [List.any_cons, htok, Bool.not_true, Bool.false_or] at h
        exact h
      unfold parseParams
      unfold tokenOk at htok
      cases hs : splitEq tok with
      | nil => rw [hs] at htok; exact Bool.noConfusion htok
      | cons a l =>
        cases l with
        | nil => rw [hs] at htok; exact Bool.noConfusion htok
        | cons b l2 =>
          cases l2 with
          | nil =>
            rw [hs] at htok
            have hc : paramNames.contains a = true := htok
            show ∃ e : PyErr,
              (if paramNames.contains a = true then
                  parseParams (setParam pv a b) rest
                else Except.error (.ansibleError .assertionError)) =
                Except.error (.ansibleError e)
            rw [if_pos hc]
            exact parseParams_bad rest (setParam pv a b) hrest
          | cons c l3 => rw [hs] at htok; exact Bool.noConfusion htok

/-- Processing a term whose whitespace split begins with `key`: the key is
the first token and the remaining tokens go through the parameter loop. -/
theorem processTerm_cons (files : String → Option String) (term key : String)
    (rest : List String) (hsplit : pySplit term = key :: rest) :
    processTerm files term =
      match parseParams initParamVals rest with
      | .error e => .error e
      | .ok pv => lookupTerm files key pv := by
  unfold processTerm
  rw [hsplit]

/-- Successful parameter parsing feeds the parsed values to the lookup. -/
theorem processTerm_ok_params (files : String → Option String) (term key : String)
    (rest : List String) (pv : ParamVals) (hsplit : pySplit term = key :: rest)
    (hparams : parseParams initParamVals rest = .ok pv) :
    processTerm files term = lookupTerm files key pv := by
  rw [processTerm_cons files term key rest hsplit, hparams]

/-- Failed parameter parsing is the term's result. -/
theorem processTerm_err_params (files : String → Option String) (term key : String)
    (rest : List String) (e : LookupErr) (hsplit : pySplit term = key :: rest)
    (hparams : parseParams initParamVals rest = .error e) :
    processTerm files term = .error e := by
  rw [processTerm_cons files term key rest hsplit, hparams]

/-- An error on the first term is the result of the whole call. -/
theorem run_cons_err (files : String → Option String) (term : String)
    (ts : List String) (e : LookupErr)
    (h : processTerm files term = .error e) :
    run files (term :: ts) = .error e := by
  unfold run runAux
  rw [h]

/-- When every row is non-empty and some row's first field equals the key,
the scan reaches a matching row, where `int(col)` on an invalid literal
raises `ValueError`. -/
theorem scanRows_any_match_int_err (key col : String) :
    ∀ (rows : List (List String)),
      rows.all (fun row => !(row.isEmpty)) = true →
      rows.any (fun row => row.head? == some key) = true →
      pyInt? col = none →
      scanRows key col rows = .error (.valueErrorInt col)
  | [], _, hany, _ => by simp at hany
  | r :: rows, hne, hany, hcol => by
    simp only [List.all_cons, Bool.and_eq_true] at hne
    obtain ⟨hr, hrows⟩ := hne
    cases r with
    | nil => simp [List.isEmpty] at hr
    | cons hd tl =>
      by_cases hk : hd = key
      · exact scanRows_match_int_err key col (hd :: tl) rows (by simp [hk]) hcol
      · have hany' : rows.any (fun row => row.head? == some key) = true := by
          simp only [List.any_cons, List.head?_cons, Bool.or_eq_true] at hany
          rcases hany with h1 | h2
          · exact absurd (by simpa using h1) hk
          · exact h2
        simp only [scanRows, if_neg hk]
        exact scanRows_any_match_int_err key col rows hrows hany' hcol

/-! ## Claim theorems -/

/-- C3: for every file and key, the scan visits rows in file order and
returns the field at the configured column index of the first row whose
field at index 0 equals the key by exact, case-sensitive string comparison
with no trimming (string equality of the untrimmed fields). The rows
`post` after the first match are universally quantified while the
conclusion is determined by `pre` and `r` alone, so rows after the first
match are never consulted. -/
theorem C3_first_match_returns_col (files : String → Option String)
    (filename content key col enc : String) (dflt : Option String)
    (pre post : List (List String)) (r : List String) (i : Int) (v : String)
    (hf : files filename = some content)
    (hparse : csvParse '\t' content = pre ++ r :: post)
    (hpre : pre.all (rowSkipsKey key) = true)
    (hr : r.head? = some key)
    (hi : pyInt? col = some i)
    (hv : pyIndex? r i = some v) :
    read_csv files filename key "\t" enc dflt col = .ok (some v) := by
  rw [read_csv_eval files filename content key "\t" enc col dflt '\t' hf rfl,
    hparse, scanRows_skip key col pre (r :: post) hpre,
    scanRows_match_ok key col r post hr i hi v hv]

/-- C3 witness: on the concrete demo file, looking up `B` at the default
column 1 returns `p` from the second row; the first row is skipped and the
third is behind the match. -/
theorem C3_witness :
    read_csv demoFiles "ansible.csv" "B" "\t" "utf-8" none "1" =
      .ok (some "p") :=
  C3_first_match_returns_col demoFiles "ansible.csv" "A\tx\ty\nB\tp\tq\nk\ta\tb"
    "B" "1" "utf-8" none [["A", "x", "y"]] [["k", "a", "b"]] ["B", "p", "q"]
    1 "p" rfl rfl rfl rfl rfl rfl

/-- C2 counterexample: the claim says a negative column index makes the
operation fail, but `row[int(col)]` uses Python indexing: with `col=-1` on
the matched three-field row `k,a,b` the lookup succeeds and returns the
last field `b` — no error and no default. -/
theorem C2_counterexample : run demoFiles ["k col=-1"] = .ok ["b"] := by rfl

/-- C2 (amended): the column index must lie within Python's index range of
the matched row, `-len ≤ i < len`; when the parsed index is `≥ len` or
`< -len` the lookup fails with the wrapped `IndexError` instead of
returning the default. (Negative indices inside the range select fields
from the end and do not fail.) -/
theorem C2_out_of_range_col_fails (files : String → Option String)
    (filename content key col enc : String) (dflt : Option String)
    (pre post : List (List String)) (r : List String) (i : Int)
    (hf : files filename = some content)
    (hparse : csvParse '\t' content = pre ++ r :: post)
    (hpre : pre.all (rowSkipsKey key) = true)
    (hr : r.head? = some key)
    (hi : pyInt? col = some i)
    (hout : (r.length : Int) ≤ i ∨ i + (r.length : Int) < 0) :
    read_csv files filename key "\t" enc dflt col =
      .error (.ansibleError .indexError) := by
  rw [read_csv_eval files filename content key "\t" enc col dflt '\t' hf rfl,
    hparse, scanRows_skip key col pre (r :: post) hpre,
    scanRows_match_idx_err key col r post hr i hi (pyIndex?_out r i hout)]

/-- C2 witness: `col=5` on the matched three-field row `k,a,b` fails with
the wrapped `IndexError` rather than returning the default. -/
theorem C2_witness :
    read_csv demoFiles "ansible.csv" "k" "\t" "utf-8" none "5" =
      .error (.ansibleError .indexError) :=
  C2_out_of_range_col_fails demoFiles "ansible.csv" "A\tx\ty\nB\tp\tq\nk\ta\tb"
    "k" "5" "utf-8" none [["A", "x", "y"], ["B", "p", "q"]] [] ["k", "a", "b"]
    5 rfl rfl rfl rfl rfl (Or.inl (by decide))

/-- C9: a parsed empty row (as produced by a blank line) positioned before
any matching row makes `row[0]` raise `IndexError`, which `read_csv` wraps
in an `AnsibleError` — the term errors instead of skipping the empty row,
even though a matching row exists later in the file. -/
theorem C9_empty_row_errors (files : String → Option String)
    (filename content key col enc : String) (dflt : Option String)
    (pre post : List (List String))
    (hf : files filename = some content)
    (hparse : csvParse '\t' content = pre ++ [] :: post)
    (hpre : pre.all (rowNoMatch key) = true)
    (hmatch : ∃ r ∈ post, r.head? = some key) :
    read_csv files filename key "\t" enc dflt col =
      .error (.ansibleError .indexError) := by
  rw [read_csv_eval files filename content key "\t" enc col dflt '\t' hf rfl,
    hparse, scanRows_empty_row key col pre post hpre]

/-- C9 witness: `blank.csv` has a blank line before the row keyed `k`;
looking up `k` errors with the wrapped `IndexError` although the matching
row exists after the blank line. -/
theorem C9_witness :
    read_csv demoFiles "blank.csv" "k" "\t" "utf-8" none "1" =
      .error (.ansibleError .indexError) :=
  C9_empty_row_errors demoFiles "blank.csv" "A\tx\n\nk\tv\tw" "k" "1" "utf-8"
    none [["A", "x"]] [["k", "v", "w"]] rfl rfl rfl
    ⟨["k", "v", "w"], by simp, rfl⟩

/-- C6: setting the delimiter option to the literal string `TAB` gives the
same lookup outcome — value, default fallback, or error — as setting it to
an actual horizontal-tab character, for the same file content, key and
otherwise identical options. (A literal tab can never reach the parameter
table through a term string, since terms are split on whitespace, so the
aliasing is stated at the parameter level where `run` applies it.) -/
theorem C6_TAB_alias_equiv (files : String → Option String) (key : String)
    (pv : ParamVals) :
    lookupTerm files key { pv with delimiter := "TAB" } =
    lookupTerm files key { pv with delimiter := "\t" } := by
  unfold lookupTerm applyTabAlias
  rw [if_pos (show ({ pv with delimiter := "TAB" } : ParamVals).delimiter = "TAB"
      from rfl),
    if_neg (show ¬(("\t" : String) = "TAB") by decide)]

/-- C5: if any term errors, the whole invocation fails immediately with
that first error and returns no partial results — the values accumulated
from the earlier, successful terms do not reach the caller, whatever terms
follow the failing one. -/
theorem C5_fail_fast_no_partial (files : String → Option String)
    (pre post : List String) (t : String) (e : LookupErr)
    (hpre : ∀ p ∈ pre, ∃ v, processTerm files p = .ok v)
    (ht : processTerm files t = .error e) :
    run files (pre ++ t :: post) = .error e :=
  runAux_error_first files t e post ht pre [] hpre

/-- C5 witness: the first term resolves to `x`, the second fails with an
out-of-range column; the whole call returns only that error, not `["x"]`,
and the third term is irrelevant. -/
theorem C5_witness :
    run demoFiles ["A", "k col=9", "B"] = .error (.ansibleError .indexError) :=
  C5_fail_fast_no_partial demoFiles ["A"] ["B"] "k col=9"
    (.ansibleError .indexError)
    (by
      intro p hp
      simp only [List.mem_singleton] at hp
      subst hp
      exact ⟨some "x", rfl⟩)
    rfl

/-- C7: terms are processed strictly in input order and their resolved
values are appended in that same order: the results of a concatenation of
term lists are the concatenation of their results. -/
theorem C7_order_preserved (files : String → Option String)
    (ts1 ts2 vs1 vs2 : List String)
    (h1 : run files ts1 = .ok vs1) (h2 : run files ts2 = .ok vs2) :
    run files (ts1 ++ ts2) = .ok (vs1 ++ vs2) := by
  unfold run at h1 h2 ⊢
  rw [runAux_append files ts1 [] ts2, h1]
  show runAux files vs1 ts2 = Except.ok (vs1 ++ vs2)
  rw [runAux_acc files ts2 vs1, h2]
  rfl

/-- C7 witness: the claim's concrete example — terms `A` and `B` matching
rows `A,x,y` and `B,p,q` return `["x", "p"]` in that order at the default
column 1. -/
theorem C7_witness : run demoFiles ["A", "B"] = .ok ["x", "p"] :=
  C7_order_preserved demoFiles ["A"] ["B"] ["x"] ["p"] rfl rfl

/-- C1 counterexample: the claim says a term with an absent key and no
default option contributes the empty string to the result list; in the
code the default is Python `None`, which the `if var is not None` guard
skips, so nothing at all is appended: the result is `[]`, not `[""]`. -/
theorem C1_counterexample :
    run demoFiles ["zzz"] = .ok [] ∧
    (Except.ok ([] : List String) : Except LookupErr (List String)) ≠
      Except.ok [""] :=
  ⟨rfl, by decide⟩

/-- C1 (amended): for a term whose key matches no row of the file, the
lookup returns the configured default rather than erroring; when a
default option is set its value is appended, and when none is set the
default is `None` and the term contributes nothing to the result list
(not an empty string). -/
theorem C1_absent_key_returns_default (files : String → Option String)
    (term key content : String) (rest : List String) (pv : ParamVals) (d : Char)
    (hsplit : pySplit term = key :: rest)
    (hparams : parseParams initParamVals rest = .ok pv)
    (hdelim : delimChar? (applyTabAlias pv).delimiter = some d)
    (hfile : files pv.file = some content)
    (hnomatch : (csvParse d content).all (rowSkipsKey key) = true) :
    run files [term] = .ok pv.default.toList := by
  have hpt : processTerm files term = .ok pv.default := by
    rw [processTerm_ok_params files term key rest pv hsplit hparams]
    unfold lookupTerm
    rw [read_csv_eval files (applyTabAlias pv).file content key
        (applyTabAlias pv).delimiter (applyTabAlias pv).encoding
        (applyTabAlias pv).col (applyTabAlias pv).default d
        (by rw [applyTabAlias_file]; exact hfile) hdelim,
      scanRows_nomatch key (applyTabAlias pv).col (csvParse d content) hnomatch,
      applyTabAlias_default]
  rw [run_single files term, hpt]
  cases hdef : pv.default with
  | none => rfl
  | some dv => rfl

/-- C1 witness: with the key absent but `default=DF` set, the default
value is what the term contributes. -/
theorem C1_witness : run demoFiles ["zzz default=DF"] = .ok ["DF"] :=
  C1_absent_key_returns_default demoFiles "zzz default=DF" "zzz"
    "A\tx\ty\nB\tp\tq\nk\ta\tb" ["default=DF"]
    { initParamVals with default := some "DF" } '\t' rfl rfl rfl rfl rfl

/-- C4 counterexample: the claim says an unknown option name fails the
lookup with a descriptive error identifying the offending term; the code
fails via the bare `assert(name in paramvals)`, whose `AssertionError`
carries no message, so `AnsibleError(e)` is empty: two calls with
different offending terms and different unknown option names produce the
very same error value, which therefore identifies neither term. -/
theorem C4_counterexample :
    run demoFiles ["aa bogus=1"] = .error (.ansibleError .assertionError) ∧
    run demoFiles ["bb zzz=9"] = .error (.ansibleError .assertionError) :=
  ⟨rfl, rfl⟩

/-- C4 (amended): a term containing a token after the key that does not
split on `=` into exactly a name and a value, or whose name is not one of
col, default, delimiter, file, encoding, fails the whole lookup call with
an `AnsibleError` (wrapping the unpack `ValueError` or the
`AssertionError`) rather than skipping that option — but the error does
not identify the offending term: the wrapped `AssertionError` carries no
message and the `ValueError` only the part count. -/
theorem C4_bad_option_fails (files : String → Option String)
    (term key : String) (rest ts : List String)
    (hsplit : pySplit term = key :: rest)
    (hbad : rest.any (fun tok => !(tokenOk tok)) = true) :
    ∃ e : PyErr, run files (term :: ts) = .error (.ansibleError e) := by
  obtain ⟨e, he⟩ := parseParams_bad rest initParamVals hbad
  exact ⟨e, run_cons_err files term ts (.ansibleError e)
    (processTerm_err_params files term key rest (.ansibleError e) hsplit he)⟩

/-- C4 witness: the unknown option `bogus=1` fails the whole call with a
wrapped error. -/
theorem C4_witness :
    ∃ e : PyErr, run demoFiles ["k bogus=1"] = .error (.ansibleError e) :=
  C4_bad_option_fails demoFiles "k bogus=1" "k" ["bogus=1"] [] rfl rfl

/-- C8 counterexample: the claim says a term with no tokens fails the
lookup with a descriptive error identifying the offending term; the code
raises a bare, uncaught `IndexError` from `params[0]` (outside the
`try` block, never wrapped in the descriptive `AnsibleError` channel), and
distinct whitespace-only terms produce the identical error value, which
carries nothing that could identify the term. -/
theorem C8_counterexample :
    run demoFiles [" "] = .error (.uncaught .indexError) ∧
    run demoFiles ["\x0c"] = .error (.uncaught .indexError) ∧
    LookupErr.uncaught .indexError ≠ LookupErr.ansibleError .indexError :=
  ⟨rfl, rfl, by decide⟩

/-- C8 (amended): the term is split on whitespace and the first token is
taken as the key; a term with no tokens (empty or whitespace-only) fails
the whole lookup — but via an uncaught `IndexError` from `params[0]`,
not via a descriptive error identifying the offending term. -/
theorem C8_empty_term_uncaught (files : String → Option String)
    (term : String) (ts : List String) (h : pySplit term = []) :
    run files (term :: ts) = .error (.uncaught .indexError) := by
  apply run_cons_err
  unfold processTerm
  rw [h]

/-- C8 witness: the empty term aborts the whole call before the later
well-formed term is reached. -/
theorem C8_witness :
    run demoFiles ["", "A"] = .error (.uncaught .indexError) :=
  C8_empty_term_uncaught demoFiles "" ["A"] rfl

/-- C10: an invalid `col` value such as `col=abc` passes parameter
parsing (first conjunct) and is only detected during scanning, because
`int(col)` is evaluated only at a matching row: when every row is
non-empty and some row's first field equals the key, the call errors with
the wrapped `ValueError`; when no row matches, the configured default is
returned and the invalid column value never raises. -/
theorem C10_invalid_col_detected_lazily (files : String → Option String)
    (filename content key col colTok enc : String) (dflt : Option String)
    (htok : splitEq colTok = ["col", col])
    (hcol : pyInt? col = none)
    (hf : files filename = some content)
    (hne : (csvParse '\t' content).all (fun row => !(row.isEmpty)) = true) :
    parseParams initParamVals [colTok] = .ok { initParamVals with col := col } ∧
    ((csvParse '\t' content).any (fun row => row.head? == some key) = true →
      read_csv files filename key "\t" enc dflt col =
        .error (.ansibleError (.valueErrorInt col))) ∧
    ((csvParse '\t' content).all (rowSkipsKey key) = true →
      read_csv files filename key "\t" enc dflt col = .ok dflt) := by
  refine ⟨?_, ?_, ?_⟩
  · unfold parseParams
    rw [htok]
    show (if paramNames.contains "col" = true then
        parseParams (setParam initParamVals "col" col) []
      else Except.error (.ansibleError .assertionError)) = _
    rw [if_pos (by decide)]
    rfl
  · intro hany
    rw [read_csv_eval files filename content key "\t" enc col dflt '\t' hf rfl,
      scanRows_any_match_int_err key col (csvParse '\t' content) hne hany hcol]
  · intro hall
    rw [read_csv_eval files filename content key "\t" enc col dflt '\t' hf rfl,
      scanRows_nomatch key col (csvParse '\t' content) hall]

/-- C10 witness: `col=abc` with the matching key `k` errors with the
wrapped `ValueError` carrying `abc` — only once the scan hits the match. -/
theorem C10_witness :
    read_csv demoFiles "ansible.csv" "k" "\t" "utf-8" none "abc" =
      .error (.ansibleError (.valueErrorInt "abc")) :=
  (C10_invalid_col_detected_lazily demoFiles "ansible.csv"
    "A\tx\ty\nB\tp\tq\nk\ta\tb" "k" "abc" "col=abc" "utf-8" none
    rfl rfl rfl rfl).2.1 rfl

end Csvfile
